import Mathlib

/-!
Shallow embedding of the Devnovate blogging platform core: the Blog model
(Mongoose schema with its pre-save hook and instance methods), the public
blog routes, and the admin moderation / user-management routes.

Machine integers are modelled as `Nat` (ids, counters, timestamps); Mongoose
`Date` values and optional fields are `Option Nat` / `Option String`; a JS
falsy-string check (`!this.slug`) becomes an equality test with `""`; a JS
falsy check on a `Date` field becomes `Option.isNone`. Fallible route
handlers return `Except ApiError _` where the error carries the HTTP status
code and message the route sends; an early `return res.status(...).json`
before any mutation corresponds to the `.error` branch, in which the stored
record is untouched (the `afterX` functions make that stored state explicit).
-/

namespace Devnovate

/-- Blog status enumeration from the schema: `enum: ['draft', 'pending',
'published', 'rejected', 'hidden']`. -/
inductive Status where
  | draft
  | pending
  | published
  | rejected
  | hidden
deriving DecidableEq, Repr

/-- User role enumeration: `enum` of `user` and `admin`. -/
inductive Role where
  | user
  | admin
deriving DecidableEq, Repr

/-- An embedded comment: author user id and text content (replies and likes
on comments are not touched by any claim). -/
structure Comment where
  user : Nat
  content : String
deriving DecidableEq, Repr

/-- The Blog record, following `blogSchema`. -/
structure Blog where
  title : String
  slug : String
  content : String
  excerpt : String
  author : Nat
  status : Status
  category : String
  tags : List String
  featuredImage : String
  readTime : Nat
  views : Nat
  likes : List Nat
  comments : List Comment
  shares : Nat
  publishedAt : Option Nat
  approvedBy : Option Nat
  approvedAt : Option Nat
  rejectionReason : Option String
deriving DecidableEq, Repr

/-- A User record as used by the admin user-management routes. -/
structure User where
  id : Nat
  role : Role
  isActive : Bool
deriving DecidableEq, Repr

/-- An error response: `res.status(code).json(\x7b success: false, message \x7d)`. -/
structure ApiError where
  code : Nat
  message : String
deriving DecidableEq, Repr

/-! Slug generation, from the pre-save hook:
`this.title.toLowerCase().replace(/[^a-z0-9]+/g, '-').replace(/(^-|-$)/g, '')`. -/

/-- Character class `[a-z0-9]` (the title has already been lowercased). -/
def slugChar (c : Char) : Bool :=
  (decide ('a' ≤ c) && decide (c ≤ 'z')) || (decide ('0' ≤ c) && decide (c ≤ '9'))

/-- One step of the global replacement `/[^a-z0-9]+/g → '-'`: the Boolean
tracks whether we are inside a run of non-matching characters whose single
separator has already been emitted. -/
def collapseStep (acc : List Char × Bool) (c : Char) : List Char × Bool :=
  if slugChar c then (acc.1 ++ [c], false)
  else if acc.2 then acc
  else (acc.1 ++ ['-'], true)

/-- Collapse every maximal run of non-`[a-z0-9]` characters to one `'-'`. -/
def collapseRuns (l : List Char) : List Char :=
  (l.foldl collapseStep ([], false)).1

/-- Drop a single leading separator, as matched by `^-`. -/
def dropLeadSep : List Char → List Char
  | '-' :: rest => rest
  | l => l

/-- The replacement `/(^-|-$)/g → ''`: one leading and one trailing
separator removed. -/
def stripSeps (l : List Char) : List Char :=
  ((dropLeadSep l).reverse |> dropLeadSep).reverse

/-- Slug derivation from the title, as in the pre-save hook. -/
def slugify (title : String) : String :=
  String.mk (stripSeps (collapseRuns (title.data.map Char.toLower)))

/-- Estimated read time virtual: `ceil(content.split(' ').length / 200)`. -/
def estimatedReadTime (content : String) : Nat :=
  ((content.splitOn " ").length + 199) / 200

/-- Which schema paths were modified since the document was loaded, for the
`isModified` tests of the pre-save hook (a freshly created document has every
path modified). -/
structure Modified where
  title : Bool
  content : Bool
  status : Bool
deriving DecidableEq, Repr

/-- The `blogSchema.pre('save')` hook: assign the slug when the title is
modified and no slug is set; recompute the read time when the content is
modified; stamp `publishedAt` when the status was changed to `published` and
no publish timestamp is set. `now` is the value of `new Date()`. -/
def preSave (b : Blog) (m : Modified) (now : Nat) : Blog :=
  let b1 := if m.title && b.slug == "" then { b with slug := slugify b.title } else b
  let b2 := if m.content then { b1 with readTime := estimatedReadTime b1.content } else b1
  if m.status && b2.status == Status.published && b2.publishedAt.isNone then
    { b2 with publishedAt := some now }
  else b2

/-! Engagement methods on the Blog model. -/

/-- JS `Array.prototype.indexOf`, returning `none` in place of `-1`. -/
def jsIndexOf : List Nat → Nat → Option Nat
  | [], _ => none
  | x :: xs, u => if x == u then some 0 else (jsIndexOf xs u).map (· + 1)

/-- JS `array.splice(i, 1)`: remove the element at index `i`. -/
def spliceOne (l : List Nat) (i : Nat) : List Nat :=
  l.take i ++ l.drop (i + 1)

/-- The `toggleLike` method: look up `userId` in the likes array; push it
when absent, splice it out when present. -/
def toggleLike (likes : List Nat) (userId : Nat) : List Nat :=
  match jsIndexOf likes userId with
  | none => likes ++ [userId]
  | some i => spliceOne likes i

/-- The `incrementViews` method: bump the counter and save (the hook runs
with only the `views` path modified). -/
def incrementViews (b : Blog) (now : Nat) : Blog :=
  preSave { b with views := b.views + 1 } ⟨false, false, false⟩ now

/-- The `addComment` method: append a comment and save. -/
def addComment (b : Blog) (userId : Nat) (content : String) (now : Nat) : Blog :=
  preSave { b with comments := b.comments ++ [⟨userId, content⟩] } ⟨false, false, false⟩ now

/-! Public blog routes. -/

/-- Body of `POST /api/blogs`: create a blog with `status: 'pending'` and
save it; the new document has every path modified and no slug yet. -/
def createBlog (title content excerpt category : String) (tags : List String)
    (featuredImage : String) (authorId : Nat) (now : Nat) : Blog :=
  preSave
    { title := title, slug := "", content := content, excerpt := excerpt,
      author := authorId, status := Status.pending, category := category,
      tags := tags, featuredImage := featuredImage, readTime := 0, views := 0,
      likes := [], comments := [], shares := 0, publishedAt := none,
      approvedBy := none, approvedAt := none, rejectionReason := none }
    ⟨true, true, true⟩ now

/-- Update body for `PUT /api/blogs/:id`; each field is optional, and the
route itself may inject `status`. -/
structure UpdateBody where
  title : Option String
  content : Option String
  excerpt : Option String
  category : Option String
  tags : Option (List String)
  featuredImage : Option String
  status : Option Status
deriving DecidableEq, Repr

/-- Application of `findByIdAndUpdate(id, body)`: set each supplied field
(no document middleware runs on this path). -/
def applyUpdate (b : Blog) (body : UpdateBody) : Blog :=
  { b with
    title := body.title.getD b.title,
    content := body.content.getD b.content,
    excerpt := body.excerpt.getD b.excerpt,
    category := body.category.getD b.category,
    tags := body.tags.getD b.tags,
    featuredImage := body.featuredImage.getD b.featuredImage,
    status := body.status.getD b.status }

/-- Body of `PUT /api/blogs/:id`: reject callers who are neither admin nor
the author; demote a published blog back to `pending` by overwriting the
supplied status; then apply the update. -/
def updateBlog (b : Blog) (callerId : Nat) (callerRole : Role)
    (body : UpdateBody) : Except ApiError Blog :=
  if callerRole ≠ Role.admin && b.author ≠ callerId then
    Except.error ⟨403, "Not authorized to update this blog"⟩
  else
    let body1 := if b.status == Status.published
      then { body with status := some Status.pending } else body
    Except.ok (applyUpdate b body1)

/-- Stored state after `PUT /api/blogs/:id` (unchanged when the call failed
before writing). -/
def afterUpdate (b : Blog) (callerId : Nat) (callerRole : Role)
    (body : UpdateBody) : Blog :=
  match updateBlog b callerId callerRole body with
  | Except.ok b2 => b2
  | Except.error _ => b

/-- Body of `GET /api/blogs/:slug`: `findOne` restricted to
`status: 'published'`; a miss is a 404; on a hit, views are incremented only
when `req.user` is present. Returns the response and the stored record. -/
def getBlog (b : Blog) (slug : String) (user : Option Nat) (now : Nat) :
    Except ApiError Blog × Blog :=
  if b.slug == slug && b.status == Status.published then
    match user with
    | some _ =>
      let b2 := incrementViews b now
      (Except.ok b2, b2)
    | none => (Except.ok b, b)
  else (Except.error ⟨404, "Blog not found"⟩, b)

/-- Body of `POST /api/blogs/:id/like`: refuse unpublished blogs, toggle the
caller's like and save, then answer with the resulting like count and liked
flag. -/
def likeBlog (b : Blog) (userId : Nat) (now : Nat) :
    Except ApiError (Blog × Nat × Bool) :=
  if b.status ≠ Status.published then
    Except.error ⟨400, "Cannot like unpublished blog"⟩
  else
    let b2 := preSave { b with likes := toggleLike b.likes userId }
      ⟨false, false, false⟩ now
    Except.ok (b2, b2.likes.length, b2.likes.contains userId)

/-- Stored state after `POST /api/blogs/:id/like`. -/
def afterLike (b : Blog) (userId : Nat) (now : Nat) : Blog :=
  match likeBlog b userId now with
  | Except.ok (b2, _, _) => b2
  | Except.error _ => b

/-! Admin moderation routes. -/

/-- Body of `PUT /api/admin/blogs/:id/approve`: only `pending` blogs may be
approved; on success the route sets status, publish timestamp, approver id
and approval timestamp, then saves. -/
def approveBlog (b : Blog) (adminId : Nat) (now : Nat) : Except ApiError Blog :=
  if b.status ≠ Status.pending then
    Except.error ⟨400, "Blog is not pending approval"⟩
  else
    let b2 := { b with
      status := Status.published,
      publishedAt := some now,
      approvedBy := some adminId,
      approvedAt := some now }
    Except.ok (preSave b2 ⟨false, false, true⟩ now)

/-- Stored state after the approve route. -/
def afterApprove (b : Blog) (adminId : Nat) (now : Nat) : Blog :=
  match approveBlog b adminId now with
  | Except.ok b2 => b2
  | Except.error _ => b

/-- Body of `PUT /api/admin/blogs/:id/reject`: the rejection reason is
validated to 10–500 characters, only `pending` blogs may be rejected, and on
success the reason is stored and the blog saved. -/
def rejectBlog (b : Blog) (reason : String) (now : Nat) : Except ApiError Blog :=
  if reason.length < 10 || 500 < reason.length then
    Except.error ⟨400, "Rejection reason must be between 10 and 500 characters"⟩
  else if b.status ≠ Status.pending then
    Except.error ⟨400, "Blog is not pending approval"⟩
  else
    let b2 := { b with status := Status.rejected, rejectionReason := some reason }
    Except.ok (preSave b2 ⟨false, false, true⟩ now)

/-- Stored state after the reject route. -/
def afterReject (b : Blog) (reason : String) (now : Nat) : Blog :=
  match rejectBlog b reason now with
  | Except.ok b2 => b2
  | Except.error _ => b

/-- Body of `PUT /api/admin/blogs/:id/toggle-visibility`: the guard admits
only `published` blogs; then the status is flipped by the ternary
`status === 'published' ? 'hidden' : 'published'`, the publish timestamp is
refreshed when the new status is `published`, and the blog is saved. -/
def toggleVisibility (b : Blog) (now : Nat) : Except ApiError Blog :=
  if b.status ≠ Status.published then
    Except.error ⟨400, "Can only toggle visibility of published blogs"⟩
  else
    let b2 := { b with status :=
      (if b.status == Status.published then Status.hidden else Status.published) }
    let b3 := if b2.status == Status.published
      then { b2 with publishedAt := some now } else b2
    Except.ok (preSave b3 ⟨false, false, true⟩ now)

/-- Stored state after the toggle-visibility route. -/
def afterToggleVisibility (b : Blog) (now : Nat) : Blog :=
  match toggleVisibility b now with
  | Except.ok b2 => b2
  | Except.error _ => b

/-! Admin user-management routes. -/

/-- Body of `PUT /api/admin/users/:id/toggle-status`: an admin cannot
deactivate their own account; otherwise the active flag is flipped. -/
def toggleUserStatus (target : User) (callerId : Nat) : Except ApiError User :=
  if target.id == callerId then
    Except.error ⟨400, "Cannot deactivate your own account"⟩
  else
    Except.ok { target with isActive := !target.isActive }

/-- Stored state after the toggle-status route. -/
def afterToggleUserStatus (target : User) (callerId : Nat) : User :=
  match toggleUserStatus target callerId with
  | Except.ok u => u
  | Except.error _ => target

/-- Body of `PUT /api/admin/users/:id/role`: an admin cannot change their
own role; otherwise the requested role is stored. -/
def changeUserRole (target : User) (callerId : Nat) (newRole : Role) :
    Except ApiError User :=
  if target.id == callerId then
    Except.error ⟨400, "Cannot change your own role"⟩
  else
    Except.ok { target with role := newRole }

/-- Stored state after the change-role route. -/
def afterChangeUserRole (target : User) (callerId : Nat) (newRole : Role) : User :=
  match changeUserRole target callerId newRole with
  | Except.ok u => u
  | Except.error _ => target

/-! Listing service, from `GET /api/blogs` (same shape in the category,
my-blogs and pending-blogs listings). -/

/-- Pagination metadata block of a listing response. -/
structure PageMeta where
  currentPage : Nat
  totalPages : Nat
  total : Nat
  hasNext : Bool
  hasPrev : Bool
deriving DecidableEq, Repr

/-- Body of `GET /api/blogs` after validation: `skip = (page-1)*limit`, the
query returns the matching blogs (in the selected sort order, here the order
of `db`) with `skip`/`limit` applied, `total` counts the matching documents,
and `totalPages = Math.ceil(total / limit)`. -/
def listBlogs (db : List Blog) (f : Blog → Bool) (page limit : Nat) :
    List Blog × PageMeta :=
  let skip := (page - 1) * limit
  let matching := db.filter f
  let blogs := (matching.drop skip).take limit
  let total := matching.length
  let totalPages := (total + limit - 1) / limit
  (blogs, ⟨page, totalPages, total, decide (page < totalPages), decide (1 < page)⟩)

/-! Helper lemmas. -/

/-- A save with no relevant path modified leaves the document unchanged. -/
theorem preSave_unmodified (b : Blog) (now : Nat) :
    preSave b ⟨false, false, false⟩ now = b := by
  simp [preSave]

/-! Concrete sample records used by witnesses and counterexamples. -/

/-- A sample draft blog. -/
def exBlog : Blog :=
  { title := "A draft post title", slug := "a-draft-post-title",
    content := "enough words to make a body", excerpt := "a short excerpt",
    author := 2, status := Status.draft, category := "Technology", tags := [],
    featuredImage := "", readTime := 1, views := 0, likes := [],
    comments := [], shares := 0, publishedAt := none, approvedBy := none,
    approvedAt := none, rejectionReason := none }

/-- A sample pending blog. -/
def exPending : Blog := { exBlog with status := Status.pending }

/-- A sample published blog. -/
def exPublished : Blog :=
  { exBlog with status := Status.published, publishedAt := some 3, likes := [1, 2] }

/-- A sample hidden blog. -/
def exHidden : Blog := { exBlog with status := Status.hidden, publishedAt := some 3 }

/-- A pending blog that already carries a publish timestamp from an earlier
publication (published, then edited back to pending). -/
def exRepending : Blog := { exBlog with status := Status.pending, publishedAt := some 5 }

/-- A sample update body that tries to force the status to `published`. -/
def exBody : UpdateBody :=
  ⟨some "A changed title here", none, none, none, none, none, some Status.published⟩

/-- A sample admin user. -/
def exAdminUser : User := ⟨1, Role.admin, true⟩

/-- A sample regular user. -/
def exRegularUser : User := ⟨2, Role.user, true⟩

/-! Claim theorems. -/

/-- C1: for every post whose status is not `pending`, the admin approve and
reject operations both fail with the InvalidState response (400, blog is not
pending approval), and the stored post is entirely unchanged by the failed
call. The rejection reason is assumed to pass its 10–500 character
validation, which the route checks before the status guard. -/
theorem approve_reject_nonpending_invalid_state (b : Blog) (adminId now : Nat)
    (reason : String) (hs : b.status ≠ Status.pending)
    (hr : 10 ≤ reason.length ∧ reason.length ≤ 500) :
    approveBlog b adminId now = Except.error ⟨400, "Blog is not pending approval"⟩
    ∧ rejectBlog b reason now = Except.error ⟨400, "Blog is not pending approval"⟩
    ∧ afterApprove b adminId now = b
    ∧ afterReject b reason now = b := by
  have ha : approveBlog b adminId now =
      Except.error ⟨400, "Blog is not pending approval"⟩ := by
    simp [approveBlog, hs]
  have hb : rejectBlog b reason now =
      Except.error ⟨400, "Blog is not pending approval"⟩ := by
    have h1 : ¬ reason.length < 10 := Nat.not_lt.mpr hr.1
    have h2 : ¬ 500 < reason.length := Nat.not_lt.mpr hr.2
    simp [rejectBlog, h1, h2, hs]
  exact ⟨ha, hb, by simp [afterApprove, ha], by simp [afterReject, hb]⟩

/-- C1 witness: a concrete draft blog is rejected by both admin operations
and left unchanged. -/
theorem approve_reject_nonpending_invalid_state_witness :
    approveBlog exBlog 1 7 = Except.error ⟨400, "Blog is not pending approval"⟩
    ∧ rejectBlog exBlog "Needs more sources" 7 =
        Except.error ⟨400, "Blog is not pending approval"⟩
    ∧ afterApprove exBlog 1 7 = exBlog
    ∧ afterReject exBlog "Needs more sources" 7 = exBlog :=
  approve_reject_nonpending_invalid_state exBlog 1 7 "Needs more sources"
    (by decide) (by decide)

/-- C2: the toggle-visibility route rejects a post in status `hidden` with
the same 400 guard used for every non-published status, leaving it hidden;
only the published-to-hidden direction is reachable (the unhide branch of
the route is dead code behind the guard). This exhibits the code at the
failing input of the claim. -/
theorem toggle_visibility_hidden_rejected :
    exHidden.status = Status.hidden
    ∧ toggleVisibility exHidden 9 =
        Except.error ⟨400, "Can only toggle visibility of published blogs"⟩
    ∧ afterToggleVisibility exHidden 9 = exHidden
    ∧ afterToggleVisibility exPublished 9 = { exPublished with status := Status.hidden } := by
  exact ⟨rfl, rfl, rfl, rfl⟩

/-- C3: updating a published post, by the owner or by an admin and whatever
status the caller supplies, succeeds and leaves the post in status
`pending`. -/
theorem edit_published_demotes_to_pending (b : Blog) (callerId : Nat)
    (role : Role) (body : UpdateBody) (hpub : b.status = Status.published)
    (hauth : role = Role.admin ∨ b.author = callerId) :
    ∃ b2, updateBlog b callerId role body = Except.ok b2
      ∧ b2.status = Status.pending := by
  refine ⟨applyUpdate b { body with status := some Status.pending }, ?_, ?_⟩
  · rcases hauth with h | h <;> simp [updateBlog, h, hpub]
  · simp [applyUpdate]

/-- C3 witness: the owner edits a concrete published post while supplying
status `published`; the result is still `pending`. -/
theorem edit_published_demotes_to_pending_witness :
    ∃ b2, updateBlog exPublished 2 Role.user exBody = Except.ok b2
      ∧ b2.status = Status.pending :=
  edit_published_demotes_to_pending exPublished 2 Role.user exBody rfl (Or.inr rfl)

/-- C5 counterexample: approving a pending post that already carries publish
timestamp 5 at approval time 7 overwrites the timestamp with 7, because the
approve route assigns `publishedAt` unconditionally before saving (the
pre-save hook's only-if-unset stamping never fires on this path). -/
theorem approve_overwrites_prior_publish_timestamp :
    exRepending.status = Status.pending
    ∧ exRepending.publishedAt = some 5
    ∧ (afterApprove exRepending 1 7).publishedAt = some 7
    ∧ (afterApprove exRepending 1 7).publishedAt ≠ exRepending.publishedAt := by
  refine ⟨rfl, rfl, by decide, by decide⟩

/-- C5 amended: approving a pending post sets status `published` and sets
the publish timestamp, approver id and approval timestamp all
unconditionally to the approval time, overwriting any prior publish
timestamp. -/
theorem approve_sets_fields_unconditionally (b : Blog) (adminId now : Nat)
    (h : b.status = Status.pending) :
    approveBlog b adminId now = Except.ok
      { b with
        status := Status.published,
        publishedAt := some now,
        approvedBy := some adminId,
        approvedAt := some now } := by
  simp [approveBlog, h, preSave]

/-- C5 witness: approving a concrete pending post populates all four
moderation fields. -/
theorem approve_sets_fields_unconditionally_witness :
    approveBlog exPending 1 7 = Except.ok
      { exPending with
        status := Status.published,
        publishedAt := some 7,
        approvedBy := some 1,
        approvedAt := some 7 } :=
  approve_sets_fields_unconditionally exPending 1 7 rfl

/-- C8: fetching a post by slug with no authenticated caller leaves the
stored record entirely unchanged; with an authenticated caller and a
published post matching the slug, exactly the view counter is incremented
by 1 and every other field is unchanged; an authenticated fetch that misses
also changes nothing. -/
theorem get_blog_view_increment (b : Blog) (slug : String) (u now : Nat) :
    (getBlog b slug none now).2 = b
    ∧ (b.slug = slug → b.status = Status.published →
        (getBlog b slug (some u) now).2 = { b with views := b.views + 1 })
    ∧ (¬ (b.slug = slug ∧ b.status = Status.published) →
        (getBlog b slug (some u) now).2 = b) := by
  refine ⟨?_, ?_, ?_⟩
  · by_cases h : b.slug == slug && b.status == Status.published <;>
      simp [getBlog, h]
  · intro h1 h2
    simp [getBlog, h1, h2, incrementViews, preSave_unmodified]
  · intro h
    have hc : ¬ (b.slug == slug && b.status == Status.published) = true := by
      simpa [not_and] using h
    simp [getBlog, hc]

/-- C8 witness: an authenticated fetch of a concrete published post bumps
its views from 0 to 1. -/
theorem get_blog_view_increment_witness :
    (getBlog exPublished "a-draft-post-title" (some 4) 9).2 =
      { exPublished with views := exPublished.views + 1 } :=
  (get_blog_view_increment exPublished "a-draft-post-title" 4 9).2.1 rfl rfl

/-- C9: the public single-post endpoint answers 404 for any post whose
status is not `published`, and that response is identical to the response
for a slug that matches no post at all. -/
theorem get_blog_unpublished_not_found (b : Blog) (slug : String)
    (u : Option Nat) (now : Nat) (h : b.status ≠ Status.published) :
    (getBlog b slug u now).1 = Except.error ⟨404, "Blog not found"⟩
    ∧ (∀ b2 slug2, b2.slug ≠ slug2 →
        (getBlog b2 slug2 u now).1 = (getBlog b slug u now).1) := by
  have hmain : (getBlog b slug u now).1 = Except.error ⟨404, "Blog not found"⟩ := by
    simp [getBlog, h]
  refine ⟨hmain, fun b2 slug2 h2 => ?_⟩
  have h404 : (getBlog b2 slug2 u now).1 = Except.error ⟨404, "Blog not found"⟩ := by
    simp [getBlog, h2]
  rw [h404, hmain]

/-- C9 witness: a concrete pending post yields exactly the response a
nonexistent slug yields. -/
theorem get_blog_unpublished_not_found_witness :
    (getBlog exPending "a-draft-post-title" none 0).1 =
      Except.error ⟨404, "Blog not found"⟩
    ∧ (getBlog exPublished "no-such-slug" none 0).1 =
        (getBlog exPending "a-draft-post-title" none 0).1 :=
  ⟨(get_blog_unpublished_not_found exPending "a-draft-post-title" none 0 (by decide)).1,
   (get_blog_unpublished_not_found exPending "a-draft-post-title" none 0 (by decide)).2
      exPublished "no-such-slug" (by decide)⟩

/-- C10: the admin user-management mutations refuse to act on the caller's
own account (400 responses, record untouched), and on any other target
toggle-status flips the active flag while change-role stores the requested
role. -/
theorem admin_self_mutation_blocked (target : User) (callerId : Nat) (r : Role) :
    (target.id = callerId →
        toggleUserStatus target callerId =
          Except.error ⟨400, "Cannot deactivate your own account"⟩
        ∧ changeUserRole target callerId r =
            Except.error ⟨400, "Cannot change your own role"⟩
        ∧ afterToggleUserStatus target callerId = target
        ∧ afterChangeUserRole target callerId r = target)
    ∧ (target.id ≠ callerId →
        toggleUserStatus target callerId =
          Except.ok { target with isActive := !target.isActive }
        ∧ changeUserRole target callerId r =
            Except.ok { target with role := r }) := by
  constructor
  · intro h
    refine ⟨by simp [toggleUserStatus, h], by simp [changeUserRole, h], ?_, ?_⟩
    · simp [afterToggleUserStatus, toggleUserStatus, h]
    · simp [afterChangeUserRole, changeUserRole, h]
  · intro h
    exact ⟨by simp [toggleUserStatus, h], by simp [changeUserRole, h]⟩

/-- C10 witness: the self-targeted calls leave the concrete admin unchanged,
and the calls on another concrete user flip the flag and set the role. -/
theorem admin_self_mutation_blocked_witness :
    afterToggleUserStatus exAdminUser 1 = exAdminUser
    ∧ afterChangeUserRole exAdminUser 1 Role.user = exAdminUser
    ∧ toggleUserStatus exRegularUser 1 =
        Except.ok { exRegularUser with isActive := !exRegularUser.isActive }
    ∧ changeUserRole exRegularUser 1 Role.admin =
        Except.ok { exRegularUser with role := Role.admin } :=
  ⟨((admin_self_mutation_blocked exAdminUser 1 Role.user).1 rfl).2.2.1,
   ((admin_self_mutation_blocked exAdminUser 1 Role.user).1 rfl).2.2.2,
   ((admin_self_mutation_blocked exRegularUser 1 Role.admin).2 (by decide)).1,
   ((admin_self_mutation_blocked exRegularUser 1 Role.admin).2 (by decide)).2⟩

/-! Lemmas about the toggleLike method. -/

/-- JS `indexOf` answers `-1` exactly on the elements that are absent. -/
theorem jsIndexOf_eq_none {l : List Nat} {u : Nat} :
    jsIndexOf l u = none ↔ u ∉ l := by
  induction l with
  | nil => simp [jsIndexOf]
  | cons x xs ih =>
    by_cases h : x = u
    · simp [jsIndexOf, h]
    · simp [jsIndexOf, h, ih, Ne.symm h]

/-- The toggleLike method is exactly erase-first-occurrence when the user is
present and append otherwise. -/
theorem toggleLike_eq (l : List Nat) (u : Nat) :
    toggleLike l u = if u ∈ l then l.erase u else l ++ [u] := by
  induction l with
  | nil => simp [toggleLike, jsIndexOf]
  | cons x xs ih =>
    by_cases h : x = u
    · subst h
      simp [toggleLike, jsIndexOf, spliceOne]
    · cases hj : jsIndexOf xs u with
      | none =>
        have hnm : u ∉ xs := jsIndexOf_eq_none.mp hj
        have hnm2 : u ∉ x :: xs := by simp [hnm, Ne.symm h]
        simp [toggleLike, jsIndexOf, h, hj, hnm2]
      | some i =>
        have hm : u ∈ xs := by
          by_contra hc
          rw [jsIndexOf_eq_none.mpr hc] at hj
          cases hj
        have hsplice : spliceOne xs i = xs.erase u := by
          have h1 : toggleLike xs u = spliceOne xs i := by
            simp [toggleLike, hj]
          have h2 : toggleLike xs u = xs.erase u := by
            rw [ih, if_pos hm]
          rw [← h1, h2]
        have hms : u ∈ x :: xs := List.mem_cons_of_mem x hm
        have herase : (x :: xs).erase u = x :: xs.erase u :=
          List.erase_cons_tail (by simpa using h)
        have hstep : toggleLike (x :: xs) u = x :: spliceOne xs i := by
          simp [toggleLike, jsIndexOf, h, hj, spliceOne,
            List.take_succ_cons, List.drop_succ_cons]
        rw [hstep, hsplice, if_pos hms, herase]

/-- Core algebra of toggleLike on a likes list that contains the user at
most once: a toggle appends an absent user and removes a present one, keeps
the at-most-once invariant, and two toggles restore the original membership
and length. -/
theorem toggleLike_core (l : List Nat) (u : Nat) (h : List.count u l ≤ 1) :
    (u ∉ l → toggleLike l u = l ++ [u])
    ∧ (u ∈ l → u ∉ toggleLike l u)
    ∧ List.count u (toggleLike l u) ≤ 1
    ∧ (∀ x, x ∈ toggleLike (toggleLike l u) u ↔ x ∈ l)
    ∧ (toggleLike (toggleLike l u) u).length = l.length := by
  by_cases hm : u ∈ l
  · have hc1 : List.count u l = 1 := by
      have := List.count_pos_iff.mpr hm
      omega
    have ht1 : toggleLike l u = l.erase u := by rw [toggleLike_eq, if_pos hm]
    have hnm : u ∉ l.erase u := by
      rw [← List.count_eq_zero, List.count_erase_self, hc1]
    have ht2 : toggleLike (toggleLike l u) u = l.erase u ++ [u] := by
      rw [ht1, toggleLike_eq, if_neg hnm]
    have hlen : (l.erase u).length = l.length - 1 := List.length_erase_of_mem hm
    have hpos : 1 ≤ l.length := List.length_pos.mpr (List.ne_nil_of_mem hm)
    refine ⟨fun hx => absurd hm hx, fun _ => ht1 ▸ hnm, ?_, ?_, ?_⟩
    · rw [ht1, List.count_erase_self, hc1]
      omega
    · intro x
      rw [ht2]
      by_cases hxu : x = u
      · subst hxu
        simp [hm]
      · simp only [List.mem_append, List.mem_singleton, hxu, or_false]
        exact List.mem_erase_of_ne hxu
    · rw [ht2]
      simp only [List.length_append, List.length_singleton, hlen]
      omega
  · have ht1 : toggleLike l u = l ++ [u] := by rw [toggleLike_eq, if_neg hm]
    have hm2 : u ∈ l ++ [u] := by simp
    have ht2 : toggleLike (toggleLike l u) u = l := by
      rw [ht1, toggleLike_eq, if_pos hm2, List.erase_append_right _ hm,
        List.erase_cons_head, List.append_nil]
    refine ⟨fun _ => ht1, fun hx => absurd hx hm, ?_, ?_, ?_⟩
    · rw [ht1, List.count_append, List.count_eq_zero_of_not_mem hm]
      simp
    · intro x
      rw [ht2]
    · rw [ht2]

/-- C4: on a published post whose like set contains the caller at most once,
the like route applies toggleLike and answers with the resulting count and
liked flag; toggleLike adds an absent caller, removes a present one, never
leaves the caller in the set more than once, and applied twice restores the
original membership and count. -/
theorem toggle_like_involution (p : Blog) (u now : Nat)
    (hp : p.status = Status.published) (h : List.count u p.likes ≤ 1) :
    likeBlog p u now = Except.ok ({ p with likes := toggleLike p.likes u },
        (toggleLike p.likes u).length, (toggleLike p.likes u).contains u)
    ∧ (u ∉ p.likes → toggleLike p.likes u = p.likes ++ [u])
    ∧ (u ∈ p.likes → u ∉ toggleLike p.likes u)
    ∧ List.count u (toggleLike p.likes u) ≤ 1
    ∧ (∀ x, x ∈ toggleLike (toggleLike p.likes u) u ↔ x ∈ p.likes)
    ∧ (toggleLike (toggleLike p.likes u) u).length = p.likes.length := by
  have hcore := toggleLike_core p.likes u h
  exact ⟨by simp [likeBlog, hp, preSave_unmodified], hcore.1, hcore.2.1,
    hcore.2.2.1, hcore.2.2.2.1, hcore.2.2.2.2⟩

/-- C4 witness: toggling user 2 on a concrete published post with likes
[1, 2] removes the like, and the double toggle restores membership and
count. -/
theorem toggle_like_involution_witness :
    likeBlog exPublished 2 9 = Except.ok
        ({ exPublished with likes := toggleLike exPublished.likes 2 },
          (toggleLike exPublished.likes 2).length,
          (toggleLike exPublished.likes 2).contains 2)
    ∧ (2 ∈ exPublished.likes → 2 ∉ toggleLike exPublished.likes 2)
    ∧ (toggleLike (toggleLike exPublished.likes 2) 2).length =
        exPublished.likes.length :=
  ⟨(toggle_like_involution exPublished 2 9 rfl (by decide)).1,
   (toggle_like_involution exPublished 2 9 rfl (by decide)).2.2.1,
   (toggle_like_involution exPublished 2 9 rfl (by decide)).2.2.2.2.2⟩

/-- The pre-save hook leaves the slug alone whenever the title path is not
among the modified ones. -/
theorem preSave_slug_of_title_unmodified (b : Blog) (mc ms : Bool) (now : Nat) :
    (preSave b ⟨false, mc, ms⟩ now).slug = b.slug := by
  cases mc <;> cases ms <;> simp [preSave] <;> split <;> rfl

/-- A freshly created blog gets its slug from the title. -/
theorem createBlog_slug (t c e cat : String) (tg : List String) (img : String)
    (a now : Nat) : (createBlog t c e cat tg img a now).slug = slugify t := by
  simp [createBlog, preSave]

/-- C6: the slug is computed exactly once, from the title, when the blog is
first created and saved; every other operation of the system — approve,
reject, toggle-visibility, like, comment, view increment, fetch, and
content/title update (which bypasses the save hook) — preserves the slug
unchanged. -/
theorem slug_computed_once_never_recomputed :
    (∀ t c e cat tg img a now, (createBlog t c e cat tg img a now).slug = slugify t)
    ∧ (∀ b a now, (afterApprove b a now).slug = b.slug)
    ∧ (∀ b r now, (afterReject b r now).slug = b.slug)
    ∧ (∀ b now, (afterToggleVisibility b now).slug = b.slug)
    ∧ (∀ b u now, (afterLike b u now).slug = b.slug)
    ∧ (∀ b u c now, (addComment b u c now).slug = b.slug)
    ∧ (∀ b now, (incrementViews b now).slug = b.slug)
    ∧ (∀ b s u now, ((getBlog b s u now).2).slug = b.slug)
    ∧ (∀ b cid role body, (afterUpdate b cid role body).slug = b.slug) := by
  refine ⟨createBlog_slug, ?_, ?_, ?_, ?_, ?_, ?_, ?_, ?_⟩
  · intro b a now
    unfold afterApprove approveBlog
    split_ifs with h1 <;> simp [preSave_slug_of_title_unmodified]
  · intro b r now
    unfold afterReject rejectBlog
    split_ifs with h1 h2 <;> simp [preSave_slug_of_title_unmodified]
  · intro b now
    unfold afterToggleVisibility toggleVisibility
    split_ifs with h1 h2 <;> simp [preSave_slug_of_title_unmodified]
  · intro b u now
    unfold afterLike likeBlog
    split_ifs with h1 <;> simp [preSave_unmodified]
  · intro b u c now
    simp [addComment, preSave_unmodified]
  · intro b now
    simp [incrementViews, preSave_unmodified]
  · intro b s u now
    unfold getBlog
    split_ifs with h1 <;> cases u <;> simp [incrementViews, preSave_unmodified]
  · intro b cid role body
    unfold afterUpdate updateBlog
    split_ifs with h1 <;> simp [applyUpdate]

/-- The number of entries returned by a listing never exceeds the limit. -/
theorem listBlogs_length_le (db : List Blog) (f : Blog → Bool) (page limit : Nat) :
    (listBlogs db f page limit).1.length ≤ limit := by
  simpa [listBlogs] using List.length_take_le limit _

/-- C7: a listing with page p ≥ 1 and limit 1–50 returns the matching posts
with exactly (p-1)*limit of them skipped, at most limit entries, and
metadata with the matching count, totalPages equal to the ceiling of
total/limit (stated as the least page count whose pages cover the total),
hasNext exactly when the page is below totalPages, and hasPrev exactly when
the page is above 1. -/
theorem listing_pagination_invariants (db : List Blog) (f : Blog → Bool)
    (page limit : Nat) (hp : 1 ≤ page) (hl : 1 ≤ limit) (hl50 : limit ≤ 50) :
    (listBlogs db f page limit).1 =
        ((db.filter f).drop ((page - 1) * limit)).take limit
    ∧ (listBlogs db f page limit).1.length ≤ limit
    ∧ (listBlogs db f page limit).2.currentPage = page
    ∧ (listBlogs db f page limit).2.total = (db.filter f).length
    ∧ (listBlogs db f page limit).2.totalPages = (db.filter f).length ⌈/⌉ limit
    ∧ (db.filter f).length ≤ limit * (listBlogs db f page limit).2.totalPages
    ∧ (∀ n, (db.filter f).length ≤ limit * n →
        (listBlogs db f page limit).2.totalPages ≤ n)
    ∧ (listBlogs db f page limit).2.hasNext =
        decide (page < (listBlogs db f page limit).2.totalPages)
    ∧ (listBlogs db f page limit).2.hasPrev = decide (1 < page) := by
  have hl0 : 0 < limit := hl
  have hceil : (listBlogs db f page limit).2.totalPages =
      (db.filter f).length ⌈/⌉ limit := by
    rw [Nat.ceilDiv_eq_add_pred_div]
    rfl
  refine ⟨rfl, listBlogs_length_le db f page limit, rfl, rfl, hceil, ?_, ?_, rfl, rfl⟩
  · rw [hceil]
    simpa [smul_eq_mul] using le_smul_ceilDiv (b := (db.filter f).length) hl0
  · intro n hn
    rw [hceil]
    exact (ceilDiv_le_iff_le_smul hl0).mpr (by simpa [smul_eq_mul] using hn)

/-- C7 witness: listing one published and one pending post with page 1 and
limit 10 returns at most 10 entries, and one page suffices. -/
theorem listing_pagination_invariants_witness :
    (listBlogs [exPublished, exPending] (fun b => b.status == Status.published)
        1 10).1.length ≤ 10
    ∧ (listBlogs [exPublished, exPending] (fun b => b.status == Status.published)
        1 10).2.totalPages ≤ 1 :=
  ⟨(listing_pagination_invariants [exPublished, exPending]
      (fun b => b.status == Status.published) 1 10
      (by decide) (by decide) (by decide)).2.1,
   (listing_pagination_invariants [exPublished, exPending]
      (fun b => b.status == Status.published) 1 10
      (by decide) (by decide) (by decide)).2.2.2.2.2.2.1 1 (by decide)⟩

end Devnovate
